import Mathlib

/-!
Verification of the temp-mail proxy backend (`main.py`).

The program is a thin FastAPI layer over the mail.tm REST API.  We embed it
shallowly: every upstream HTTP interaction is modelled by a response oracle
(a record of functions describing what the external service answers), and
each endpoint handler becomes a pure function from the oracle and the
request data to an `Except HTTPException` result.  Randomness
(`random_local_part`) is modelled by an oracle stream: `rand k` is the
result of the k-th call to `random_local_part(10)` made by the handler, and
`rand14` the result of the single possible `random_local_part(14)` call.
Since the upstream server is stateful, the oracle for the provisioning loop
is indexed by the attempt number (the i-th iteration of the retry loop sees
the i-th answers).
-/

/-- Embeds `fastapi.HTTPException(status_code=..., detail=...)`. -/
structure HTTPException where
  status_code : Nat
  detail : String
deriving DecidableEq, Repr

/-- Request body of `POST /api/temp-mail/new` (`NewAccountRequest`, main.py lines 24-27).
`none` models an absent JSON field (Python `None`). -/
structure NewAccountRequest where
  «local» : Option String
  password : Option String
  domain : Option String
deriving DecidableEq, Repr

/-- Request body of `POST /api/temp-mail/token` (`TokenRequest`, main.py lines 30-32). -/
structure TokenRequest where
  address : String
  password : String
deriving DecidableEq, Repr

/-- One record of the upstream `hydra:member` domain list; `domain` is the
value of its `"domain"` key (`none` when the key is missing, and `.get`
returns Python `None`). -/
structure DomainRecord where
  domain : Option String
deriving DecidableEq, Repr

/-- The JSON payload answered by upstream `POST /token`; `token` is the value
of its `"token"` key, `none` when the key is absent (`payload.get("token")`
then yields Python `None`). -/
structure TokenPayload where
  token : Option String
deriving DecidableEq, Repr

instance {α β : Type} [DecidableEq α] [DecidableEq β] : DecidableEq (Except α β) :=
  fun x y =>
    match x, y with
    | .error a, .error b =>
      if h : a = b then isTrue (by rw [h]) else
        isFalse (fun hc => h (Except.error.inj hc))
    | .ok a, .ok b =>
      if h : a = b then isTrue (by rw [h]) else
        isFalse (fun hc => h (Except.ok.inj hc))
    | .error _, .ok _ => isFalse (fun hc => Except.noConfusion hc)
    | .ok _, .error _ => isFalse (fun hc => Except.noConfusion hc)

/-- Python truthiness of an optional string: `None` and `""` are falsy. -/
def pyTruthy : Option String → Bool
  | none => false
  | some s => !(s == "")

/-- Python `a or b` on optional strings (the value of `b` is returned when
`a` is falsy, i.e. `None` or `""`). -/
def pyOrStr (a b : Option String) : Option String :=
  match a with
  | none => b
  | some s => if s == "" then b else some s

/-- Python `str.split()` (no separator argument): split on runs of
whitespace, dropping empty pieces.  Recursion over the character list, with
`acc` holding the reversed characters of the current word. -/
def pySplitChars : List Char → List Char → List String
  | [], acc => if acc.isEmpty then [] else [String.mk acc.reverse]
  | c :: cs, acc =>
    if c.isWhitespace then
      if acc.isEmpty then pySplitChars cs []
      else String.mk acc.reverse :: pySplitChars cs []
    else pySplitChars cs (c :: acc)

/-- Python `str.split()` on a string. -/
def pySplit (s : String) : List String :=
  pySplitChars s.data []

/-- Python `str.lower()` restricted to ASCII (sufficient for the `"bearer"`
comparison in the router). -/
def pyLower (s : String) : String :=
  String.mk (s.data.map Char.toLower)

/-- Response oracle for the upstream calls made by `create_temp_mail`.
Fields ending in `Status`/`Text` are the HTTP status code and body text of
the corresponding upstream response; the loop-related oracles are indexed
by the attempt number `i` (the i-th iteration of the retry loop), and the
`/me` oracles additionally by the bearer token the handler presents
(possibly `none`, Python `None`). -/
structure Env where
  domainsStatus : Nat
  domainsText : String
  domainsMembers : List DomainRecord
  rand : Nat → String
  rand14 : String
  createStatus : Nat → Nat
  createText : Nat → String
  createBody : Nat → String
  tokenStatus : Nat → Nat
  tokenText : Nat → String
  tokenPayload : Nat → TokenPayload
  meStatus : Nat → Option String → Nat
  meText : Nat → Option String → String
  meBody : Nat → Option String → String

namespace MailTmClient

/-- `MailTmClient.list_domains` (main.py lines 41-47): 502 on non-200,
otherwise the `hydra:member` list. -/
def list_domains (env : Env) : Except HTTPException (List DomainRecord) :=
  if env.domainsStatus ≠ 200 then
    .error ⟨502, "Failed to fetch domains: " ++ env.domainsText⟩
  else
    .ok env.domainsMembers

/-- `MailTmClient.create_account` (main.py lines 49-55) at attempt `i`:
any status other than 200/201 (notably 409) is surfaced with the upstream
status code and body. -/
def create_account (env : Env) (i : Nat) (_address _password : String) :
    Except HTTPException String :=
  if ¬(env.createStatus i = 200 ∨ env.createStatus i = 201) then
    .error ⟨env.createStatus i, env.createText i⟩
  else
    .ok (env.createBody i)

/-- `MailTmClient.get_token` (main.py lines 57-62) at attempt `i`: any
non-200 status is normalized to status 401, carrying the upstream body. -/
def get_token (env : Env) (i : Nat) (_address _password : String) :
    Except HTTPException TokenPayload :=
  if env.tokenStatus i ≠ 200 then
    .error ⟨401, env.tokenText i⟩
  else
    .ok (env.tokenPayload i)

/-- `MailTmClient.me` (main.py lines 67-72) at attempt `i` with bearer
`token`: non-200 surfaced with the upstream status code. -/
def me (env : Env) (i : Nat) (token : Option String) : Except HTTPException String :=
  if env.meStatus i token ≠ 200 then
    .error ⟨env.meStatus i token, env.meText i token⟩
  else
    .ok (env.meBody i token)

end MailTmClient

/-- Success payload of `create_temp_mail` (main.py lines 131-136). -/
structure Bundle where
  address : String
  password : String
  token : Option String
  account : String
deriving DecidableEq, Repr

/-- The body of the `try:` block of one loop iteration of `create_temp_mail`
(main.py lines 126-136): create the account, get a token, read its
`"token"` key, fetch `/me` with it, and return the bundle. -/
def attemptOnce (env : Env) (i : Nat) (address password : String) :
    Except HTTPException Bundle :=
  match MailTmClient.create_account env i address password with
  | .error e => .error e
  | .ok _ =>
    match MailTmClient.get_token env i address password with
    | .error e => .error e
    | .ok token_payload =>
      let token := token_payload.token
      match MailTmClient.me env i token with
      | .error e => .error e
      | .ok me =>
        .ok { address := address, password := password, token := token, account := me }

/-- The `for _ in range(4)` retry loop of `create_temp_mail` (main.py lines
124-147), with the two trailing `raise` statements as the fuel-exhausted
case.  `i` counts attempts already started, `k` is the index of the next
`random_local_part(10)` oracle value, and the pair's second component
reports how many attempts were started (instrumentation used only by the
theorems). -/
def attemptLoop (env : Env) (dom pwd : String) :
    Nat → Nat → Nat → String → Option HTTPException →
    Except HTTPException Bundle × Nat
  | 0, i, _, _, lastErr =>
    (match lastErr with
     | some e => .error e
     | none => .error ⟨500, "Failed to create account"⟩, i)
  | fuel + 1, i, k, address, _ =>
    match attemptOnce env i address pwd with
    | .ok b => (.ok b, i + 1)
    | .error e =>
      if e.status_code = 409 then
        attemptLoop env dom pwd fuel (i + 1) (k + 1) (env.rand k ++ "@" ++ dom) (some e)
      else
        (.error e, i + 1)

/-- main.py lines 114-116: `domain = body.domain or domains[0].get("domain")`
followed by `if not domain: raise`; `none` means the 502 "Invalid domain
from provider" branch is taken. -/
def resolve_domain (body : NewAccountRequest) (d0 : DomainRecord) : Option String :=
  match pyOrStr body.domain d0.domain with
  | none => none
  | some s => if s == "" then none else some s

/-- main.py line 119: `local = body.local or random_local_part(10)`, paired
with the number of `random_local_part(10)` oracle values consumed. -/
def initLocalK (env : Env) (body : NewAccountRequest) : String × Nat :=
  match body.«local» with
  | none => (env.rand 0, 1)
  | some s => if s == "" then (env.rand 0, 1) else (s, 0)

/-- main.py line 121: `password = body.password or ("P@" + random_local_part(14))`. -/
def resolvedPassword (env : Env) (body : NewAccountRequest) : String :=
  match body.password with
  | none => "P@" ++ env.rand14
  | some s => if s == "" then "P@" ++ env.rand14 else s

/-- The `create_temp_mail` handler (main.py lines 106-147), instrumented
with the number of account-creation attempts started. -/
def create_temp_mail_run (env : Env) (body : NewAccountRequest) :
    Except HTTPException Bundle × Nat :=
  match MailTmClient.list_domains env with
  | .error e => (.error e, 0)
  | .ok domains =>
    match domains with
    | [] => (.error ⟨502, "No domains available from mail.tm"⟩, 0)
    | d0 :: _ =>
      match resolve_domain body d0 with
      | none => (.error ⟨502, "Invalid domain from provider"⟩, 0)
      | some dom =>
        attemptLoop env dom (resolvedPassword env body) 4 0
          (initLocalK env body).2 ((initLocalK env body).1 ++ "@" ++ dom) none

/-- The observable result of the `create_temp_mail` handler. -/
def create_temp_mail (env : Env) (body : NewAccountRequest) :
    Except HTTPException Bundle :=
  (create_temp_mail_run env body).1

/-- The address `create_temp_mail` tries at attempt `N` (0-based): the
initial `local@domain` for `N = 0`, and for later attempts the regenerated
`random_local_part(10)` value with `"@" ++ dom` appended (main.py lines
141-142). -/
def addressAt (env : Env) (body : NewAccountRequest) (dom : String) (N : Nat) : String :=
  if N = 0 then (initLocalK env body).1 ++ "@" ++ dom
  else env.rand ((initLocalK env body).2 + (N - 1)) ++ "@" ++ dom

/-- Oracle for the upstream `POST /token` endpoint, as a function of the
address/password pair sent (used by the standalone `create_token` route). -/
structure TokenEnv where
  status : String → String → Nat
  text : String → String → String
  payload : String → String → String

/-- `MailTmClient.get_token` (main.py lines 57-62) as used by the
`/api/temp-mail/token` route, with the upstream response a function of the
credentials; the payload is relayed opaquely. -/
def get_token_call (e : TokenEnv) (address password : String) :
    Except HTTPException String :=
  if e.status address password ≠ 200 then
    .error ⟨401, e.text address password⟩
  else
    .ok (e.payload address password)

/-- The `create_token` handler (main.py lines 150-154): pure pass-through. -/
def create_token (e : TokenEnv) (body : TokenRequest) : Except HTTPException String :=
  get_token_call e body.address body.password

/-- Response oracle for the upstream message endpoints, as functions of the
bearer token and the page / message id sent. -/
structure MsgEnv where
  msgStatus : String → Int → Nat
  msgText : String → Int → String
  msgBody : String → Int → String
  oneStatus : String → String → Nat
  oneText : String → String → String
  oneBody : String → String → String

/-- `MailTmClient.messages` (main.py lines 74-79). -/
def messages_call (menv : MsgEnv) (token : String) (page : Int) :
    Except HTTPException String :=
  if menv.msgStatus token page ≠ 200 then
    .error ⟨menv.msgStatus token page, menv.msgText token page⟩
  else
    .ok (menv.msgBody token page)

/-- `MailTmClient.message` (main.py lines 81-86). -/
def message_call (menv : MsgEnv) (token : String) (message_id : String) :
    Except HTTPException String :=
  if menv.oneStatus token message_id ≠ 200 then
    .error ⟨menv.oneStatus token message_id, menv.oneText token message_id⟩
  else
    .ok (menv.oneBody token message_id)

/-- Token extraction shared by `list_messages` and `get_message` (main.py
lines 163-167 and 181-185): start from the query parameter; when it is
falsy and the `Authorization` header is truthy, split the header on
whitespace and accept exactly two parts whose first lowercases to
`"bearer"`. -/
def extract_token (token authorization : Option String) : Option String :=
  if !pyTruthy token && pyTruthy authorization then
    let parts := pySplit (authorization.getD "")
    if parts.length == 2 && (pyLower (parts.headD "") == "bearer") then
      some (parts.getD 1 "")
    else token
  else token

/-- The `list_messages` handler (main.py lines 157-172). -/
def list_messages (menv : MsgEnv) (authorization token : Option String)
    (page : Int) : Except HTTPException String :=
  let actual := extract_token token authorization
  if !pyTruthy actual then .error ⟨400, "Missing token"⟩
  else messages_call menv (actual.getD "") page

/-- The `get_message` handler (main.py lines 175-190). -/
def get_message (menv : MsgEnv) (message_id : String)
    (authorization token : Option String) : Except HTTPException String :=
  let actual := extract_token token authorization
  if !pyTruthy actual then .error ⟨400, "Missing token"⟩
  else message_call menv (actual.getD "") message_id

/-- The token an `Authorization` header yields under the router's parsing
rule, `none` when it yields nothing (falsy header, or not exactly two
whitespace-separated parts with first part `bearer` case-insensitively). -/
def header_token : Option String → Option String
  | none => none
  | some a =>
    if a == "" then none
    else
      let parts := pySplit a
      if parts.length == 2 && (pyLower (parts.headD "") == "bearer") then
        some (parts.getD 1 "")
      else none

/-- Attempt `i` of the provisioning loop raises a 409 exception, whatever
address/password pair is sent (the attempt fails with a conflict). -/
def attemptConflict (env : Env) (i : Nat) : Prop :=
  ∀ a p, ∃ e, attemptOnce env i a p = .error e ∧ e.status_code = 409

/-- Claim C1 exactly as frozen, over the embedding: (1) a retry — attempt
`i + 1` being started — happens only when account creation at attempt `i`
failed with conflict status 409; (2) any failure with a status other than
409 in an attempt aborts the loop immediately (exactly `i + 1` attempts
started) and that error is propagated to the caller unchanged. -/
def claimC1_as_stated : Prop :=
  ∀ env body,
    (∀ i, i + 1 < (create_temp_mail_run env body).2 → env.createStatus i = 409) ∧
    (∀ i e, i < (create_temp_mail_run env body).2 →
      (∀ a p, attemptOnce env i a p = .error e) → e.status_code ≠ 409 →
      create_temp_mail_run env body = (.error e, i + 1))

/-- Claim C5 exactly as frozen: a supplied query parameter `token` is used
and takes precedence over any Authorization header; when it is absent, a
two-part `Bearer`-scheme header yields its second part; when neither rule
yields a token the request fails with 400 "Missing token". -/
def claimC5_as_stated : Prop :=
  ∀ menv auth tok page mid,
    (∀ t, tok = some t →
      list_messages menv auth tok page = messages_call menv t page ∧
      get_message menv mid auth tok = message_call menv t mid) ∧
    (tok = none → ∀ a w t2, auth = some a → pySplit a = [w, t2] → pyLower w = "bearer" →
      list_messages menv auth tok page = messages_call menv t2 page ∧
      get_message menv mid auth tok = message_call menv t2 mid) ∧
    (tok = none → header_token auth = none →
      list_messages menv auth tok page = .error ⟨400, "Missing token"⟩ ∧
      get_message menv mid auth tok = .error ⟨400, "Missing token"⟩)

/-- Claim C6 exactly as frozen: for every caller-supplied (truthy)
local-part and password override, a successful `create_temp_mail` call
returns an address equal to the supplied local part ++ "@" ++ the resolved
domain. -/
def claimC6_as_stated : Prop :=
  ∀ env body l p b d0 rest dom,
    env.domainsStatus = 200 → env.domainsMembers = d0 :: rest →
    resolve_domain body d0 = some dom →
    body.«local» = some l → l ≠ "" → body.password = some p → p ≠ "" →
    create_temp_mail env body = .ok b →
    b.address = l ++ "@" ++ dom

/-- Request body with no overrides. -/
def bodyNone : NewAccountRequest := ⟨none, none, none⟩

/-- Request body supplying a local part and a password. -/
def bodyOverride : NewAccountRequest := ⟨some "alice", some "Secret99", none⟩

/-- A concrete well-formed domain record. -/
def dW : DomainRecord := ⟨some "mail.test"⟩

/-- Baseline concrete oracle: everything succeeds. -/
def baseEnv : Env where
  domainsStatus := 200
  domainsText := ""
  domainsMembers := [dW]
  rand := fun k => "user" ++ String.mk (List.replicate k 'x')
  rand14 := "aaaaaaaaaaaaaa"
  createStatus := fun _ => 201
  createText := fun _ => ""
  createBody := fun _ => "{}"
  tokenStatus := fun _ => 200
  tokenText := fun _ => ""
  tokenPayload := fun _ => ⟨some "tok"⟩
  meStatus := fun _ _ => 200
  meText := fun _ _ => ""
  meBody := fun _ _ => "acct"

/-- Oracle where the `/me` call of the first attempt answers 409 and
everything else succeeds. -/
def envMe409 : Env :=
  { baseEnv with meStatus := fun i _ => if i = 0 then 409 else 200 }

/-- Oracle where account creation conflicts (409) on the first attempt
only. -/
def envConflict0 : Env :=
  { baseEnv with createStatus := fun i => if i = 0 then 409 else 201 }

/-- Oracle where account creation answers 409 on every attempt. -/
def envAll409 : Env :=
  { baseEnv with createStatus := fun _ => 409 }

/-- Oracle whose domain list is empty. -/
def envNoDomains : Env :=
  { baseEnv with domainsMembers := [] }

/-- Oracle whose `/token` payload carries no `"token"` key. -/
def envTokenNone : Env :=
  { baseEnv with tokenPayload := fun _ => ⟨none⟩ }

/-- Message oracle that echoes the presented bearer token back as the
body, so which token a handler used is observable. -/
def menvEcho : MsgEnv where
  msgStatus := fun _ _ => 200
  msgText := fun _ _ => ""
  msgBody := fun t _ => t
  oneStatus := fun _ _ => 200
  oneText := fun _ _ => ""
  oneBody := fun t _ => t

/-- Token oracle answering 403 with a body, for the C4 witness. -/
def tenvDeny : TokenEnv where
  status := fun _ _ => 403
  text := fun _ _ => "Invalid credentials"
  payload := fun _ _ => "{}"

/-! ## Helper lemmas -/

theorem pyTruthy_some (t : String) (h : t ≠ "") : pyTruthy (some t) = true := by
  simp [pyTruthy, h]

theorem pyTruthy_false_cases (o : Option String) (h : pyTruthy o = false) :
    o = none ∨ o = some "" := by
  cases o with
  | none => exact Or.inl rfl
  | some s =>
    right
    simp only [pyTruthy, Bool.not_eq_false', beq_iff_eq] at h
    rw [h]

theorem create_account_err (env : Env) (i : Nat) (a p : String)
    (h : ¬(env.createStatus i = 200 ∨ env.createStatus i = 201)) :
    MailTmClient.create_account env i a p =
      .error ⟨env.createStatus i, env.createText i⟩ := by
  unfold MailTmClient.create_account
  rw [if_pos h]

theorem create_account_success (env : Env) (i : Nat) (a p : String)
    (h : env.createStatus i = 200 ∨ env.createStatus i = 201) :
    MailTmClient.create_account env i a p = .ok (env.createBody i) := by
  unfold MailTmClient.create_account
  rw [if_neg (not_not_intro h)]

theorem get_token_err (env : Env) (i : Nat) (a p : String)
    (h : env.tokenStatus i ≠ 200) :
    MailTmClient.get_token env i a p = .error ⟨401, env.tokenText i⟩ := by
  unfold MailTmClient.get_token
  rw [if_pos h]

theorem get_token_success (env : Env) (i : Nat) (a p : String)
    (h : env.tokenStatus i = 200) :
    MailTmClient.get_token env i a p = .ok (env.tokenPayload i) := by
  unfold MailTmClient.get_token
  rw [if_neg (not_not_intro h)]

theorem me_err (env : Env) (i : Nat) (tok : Option String)
    (h : env.meStatus i tok ≠ 200) :
    MailTmClient.me env i tok = .error ⟨env.meStatus i tok, env.meText i tok⟩ := by
  unfold MailTmClient.me
  rw [if_pos h]

theorem me_success (env : Env) (i : Nat) (tok : Option String)
    (h : env.meStatus i tok = 200) :
    MailTmClient.me env i tok = .ok (env.meBody i tok) := by
  unfold MailTmClient.me
  rw [if_neg (not_not_intro h)]

theorem attemptOnce_create_err (env : Env) (i : Nat) (a p : String)
    (h : ¬(env.createStatus i = 200 ∨ env.createStatus i = 201)) :
    attemptOnce env i a p = .error ⟨env.createStatus i, env.createText i⟩ := by
  simp only [attemptOnce, create_account_err env i a p h]

theorem attemptOnce_409 (env : Env) (i : Nat) (a p : String)
    (h : env.createStatus i = 409) :
    attemptOnce env i a p = .error ⟨409, env.createText i⟩ := by
  have h' : ¬(env.createStatus i = 200 ∨ env.createStatus i = 201) := by
    rw [h]; decide
  rw [attemptOnce_create_err env i a p h', h]

theorem attemptOnce_token_err (env : Env) (i : Nat) (a p : String)
    (hc : env.createStatus i = 200 ∨ env.createStatus i = 201)
    (ht : env.tokenStatus i ≠ 200) :
    attemptOnce env i a p = .error ⟨401, env.tokenText i⟩ := by
  simp only [attemptOnce, create_account_success env i a p hc,
    get_token_err env i a p ht]

theorem attemptOnce_me_err (env : Env) (i : Nat) (a p : String)
    (hc : env.createStatus i = 200 ∨ env.createStatus i = 201)
    (ht : env.tokenStatus i = 200)
    (hm : env.meStatus i (env.tokenPayload i).token ≠ 200) :
    attemptOnce env i a p =
      .error ⟨env.meStatus i (env.tokenPayload i).token,
              env.meText i (env.tokenPayload i).token⟩ := by
  simp only [attemptOnce, create_account_success env i a p hc,
    get_token_success env i a p ht, me_err env i (env.tokenPayload i).token hm]

theorem attemptOnce_success (env : Env) (i : Nat) (a p : String)
    (hc : env.createStatus i = 200 ∨ env.createStatus i = 201)
    (ht : env.tokenStatus i = 200)
    (hm : env.meStatus i (env.tokenPayload i).token = 200) :
    attemptOnce env i a p =
      .ok ⟨a, p, (env.tokenPayload i).token,
           env.meBody i (env.tokenPayload i).token⟩ := by
  simp only [attemptOnce, create_account_success env i a p hc,
    get_token_success env i a p ht, me_success env i (env.tokenPayload i).token hm]

theorem attemptOnce_ok_address (env : Env) (i : Nat) (a p : String) (b : Bundle)
    (h : attemptOnce env i a p = .ok b) : b.address = a := by
  unfold attemptOnce at h
  split at h
  · simp_all
  · split at h
    · simp_all
    · dsimp only [] at h
      split at h
      · simp_all
      · rw [← Except.ok.inj h]

theorem attemptConflict_of_create409 (env : Env) (i : Nat)
    (h : env.createStatus i = 409) : attemptConflict env i :=
  fun a p => ⟨⟨409, env.createText i⟩, attemptOnce_409 env i a p h, rfl⟩

theorem attemptLoop_zero (env : Env) (dom pwd : String) (i k : Nat)
    (addr : String) (e : HTTPException) :
    attemptLoop env dom pwd 0 i k addr (some e) = (.error e, i) := rfl

theorem attemptLoop_ok (env : Env) (dom pwd : String) (fuel i k : Nat)
    (addr : String) (le : Option HTTPException) (b : Bundle)
    (h : attemptOnce env i addr pwd = .ok b) :
    attemptLoop env dom pwd (fuel + 1) i k addr le = (.ok b, i + 1) := by
  simp only [attemptLoop, h]

theorem attemptLoop_retry (env : Env) (dom pwd : String) (fuel i k : Nat)
    (addr : String) (le : Option HTTPException) (e : HTTPException)
    (h : attemptOnce env i addr pwd = .error e) (hs : e.status_code = 409) :
    attemptLoop env dom pwd (fuel + 1) i k addr le =
      attemptLoop env dom pwd fuel (i + 1) (k + 1)
        (env.rand k ++ "@" ++ dom) (some e) := by
  simp only [attemptLoop, h, hs, if_pos]

theorem attemptLoop_abort (env : Env) (dom pwd : String) (fuel i k : Nat)
    (addr : String) (le : Option HTTPException) (e : HTTPException)
    (h : attemptOnce env i addr pwd = .error e) (hs : e.status_code ≠ 409) :
    attemptLoop env dom pwd (fuel + 1) i k addr le = (.error e, i + 1) := by
  simp only [attemptLoop, h]
  rw [if_neg hs]

theorem run_reaches_loop (env : Env) (body : NewAccountRequest)
    (d0 : DomainRecord) (rest : List DomainRecord) (dom : String)
    (hd : env.domainsStatus = 200) (hm : env.domainsMembers = d0 :: rest)
    (hres : resolve_domain body d0 = some dom) :
    create_temp_mail_run env body =
      attemptLoop env dom (resolvedPassword env body) 4 0 (initLocalK env body).2
        ((initLocalK env body).1 ++ "@" ++ dom) none := by
  simp [create_temp_mail_run, MailTmClient.list_domains, hd, hm, hres]

theorem attemptLoop_addr_invariant (env : Env) (dom pwd : String) :
    ∀ fuel i k addr le b, (∃ l, addr = l ++ "@" ++ dom) →
      (attemptLoop env dom pwd fuel i k addr le).1 = .ok b →
      ∃ l, b.address = l ++ "@" ++ dom := by
  intro fuel
  induction fuel with
  | zero =>
    intro i k addr le b _ h
    cases le with
    | none => simp [attemptLoop] at h
    | some e => simp [attemptLoop] at h
  | succ n ih =>
    intro i k addr le b hinv h
    cases hone : attemptOnce env i addr pwd with
    | ok b' =>
      rw [attemptLoop_ok env dom pwd n i k addr le b' hone] at h
      simp only [] at h
      obtain ⟨l, hl⟩ := hinv
      refine ⟨l, ?_⟩
      have hb : b = b' := by
        cases h
        rfl
      rw [hb, attemptOnce_ok_address env i addr pwd b' hone, hl]
    | error e =>
      by_cases hs : e.status_code = 409
      · rw [attemptLoop_retry env dom pwd n i k addr le e hone hs] at h
        exact ih (i + 1) (k + 1) _ (some e) b ⟨env.rand k, rfl⟩ h
      · rw [attemptLoop_abort env dom pwd n i k addr le e hone hs] at h
        simp at h

theorem stringMk_ne_empty (l : List Char) (h : l ≠ []) : String.mk l ≠ "" := by
  intro hcon
  exact h (congrArg String.data hcon)

theorem pySplitChars_ne_empty : ∀ cs acc x, x ∈ pySplitChars cs acc → x ≠ "" := by
  intro cs
  induction cs with
  | nil =>
    intro acc x hx
    unfold pySplitChars at hx
    split at hx
    · simp at hx
    · next hne =>
      simp only [List.mem_singleton] at hx
      subst hx
      refine stringMk_ne_empty _ ?_
      simp only [ne_eq, List.reverse_eq_nil_iff]
      simpa using hne
  | cons c cs ih =>
    intro acc x hx
    unfold pySplitChars at hx
    split at hx
    · split at hx
      · exact ih [] x hx
      · next hne =>
        rcases List.mem_cons.mp hx with h1 | h2
        · subst h1
          refine stringMk_ne_empty _ ?_
          simp only [ne_eq, List.reverse_eq_nil_iff]
          simpa using hne
        · exact ih [] x h2
    · exact ih (c :: acc) x hx

theorem pySplit_ne_empty (s : String) (x : String) (h : x ∈ pySplit s) : x ≠ "" :=
  pySplitChars_ne_empty s.data [] x h

theorem header_token_ne_empty (auth : Option String) (t : String)
    (h : header_token auth = some t) : t ≠ "" := by
  cases auth with
  | none => simp [header_token] at h
  | some a =>
    rw [show header_token (some a) =
        (if a == "" then none
         else
           let parts := pySplit a
           if parts.length == 2 && (pyLower (parts.headD "") == "bearer") then
             some (parts.getD 1 "")
           else none) from rfl] at h
    split at h
    · exact absurd h (by simp)
    · dsimp only [] at h
      split at h
      · next hcond =>
        rw [Option.some.injEq] at h
        have hlen : (pySplit a).length = 2 := by
          simp only [Bool.and_eq_true, beq_iff_eq] at hcond
          exact hcond.1
        obtain ⟨w, t2, hwt⟩ := List.length_eq_two.mp hlen
        have ht2 : t2 ∈ pySplit a := by rw [hwt]; simp
        have hne := pySplit_ne_empty a t2 ht2
        rw [← h, hwt]
        exact hne
      · exact absurd h (by simp)

theorem extract_token_truthy (tok auth : Option String)
    (h : pyTruthy tok = true) : extract_token tok auth = tok := by
  unfold extract_token
  rw [h]
  simp

theorem extract_token_falsy (tok auth : Option String)
    (hf : pyTruthy tok = false) :
    extract_token tok auth =
      (match header_token auth with
       | some t => some t
       | none => tok) := by
  cases auth with
  | none => simp [extract_token, header_token, hf, pyTruthy]
  | some a =>
    by_cases ha : a = ""
    · subst ha
      simp [extract_token, header_token, hf, pyTruthy]
    · have hbeq : (a == "") = false := by simp [ha]
      have hta : pyTruthy (some a) = true := pyTruthy_some a ha
      simp only [extract_token, header_token, hf, hta, hbeq, Bool.not_false,
        Bool.and_self, Bool.false_eq_true, if_true, if_false, Option.getD_some]
      split <;> rename_i hC <;> simp [hC]

theorem extract_token_header (tok : Option String) (a w t2 : String)
    (hf : pyTruthy tok = false) (hsplit : pySplit a = [w, t2])
    (hw : pyLower w = "bearer") :
    extract_token tok (some a) = some t2 := by
  have ha : a ≠ "" := by
    intro hcon
    subst hcon
    rw [show pySplit "" = [] from rfl] at hsplit
    simp at hsplit
  unfold extract_token
  rw [hf, pyTruthy_some a ha]
  simp [hsplit, hw]

theorem append_at_inj (a b t : String) (h : a ++ "@" ++ t = b ++ "@" ++ t) :
    a = b := by
  have hd := congrArg String.data h
  simp only [String.data_append] at hd
  have h1 := List.append_cancel_right hd
  have h2 := List.append_cancel_right h1
  cases a; cases b
  exact congrArg String.mk h2

theorem addressAt_zero (env : Env) (body : NewAccountRequest) (dom : String) :
    addressAt env body dom 0 = (initLocalK env body).1 ++ "@" ++ dom := rfl

theorem addressAt_one (env : Env) (body : NewAccountRequest) (dom : String) :
    addressAt env body dom 1 = env.rand (initLocalK env body).2 ++ "@" ++ dom := rfl

theorem addressAt_two (env : Env) (body : NewAccountRequest) (dom : String) :
    addressAt env body dom 2 =
      env.rand ((initLocalK env body).2 + 1) ++ "@" ++ dom := rfl

theorem addressAt_three (env : Env) (body : NewAccountRequest) (dom : String) :
    addressAt env body dom 3 =
      env.rand ((initLocalK env body).2 + 2) ++ "@" ++ dom := rfl

/-! ## Claim theorems: token route and message routes -/

/-- Claim C4 (confirmed): for every address/password input, whenever the
upstream `/token` call returns any status other than 200, `get_token` — and
hence the `/api/temp-mail/token` endpoint `create_token` — fails with an
error whose status code is exactly 401, carrying the upstream response body
as detail. -/
theorem create_token_non200_is_401 (e : TokenEnv) (body : TokenRequest)
    (h : e.status body.address body.password ≠ 200) :
    create_token e body = .error ⟨401, e.text body.address body.password⟩ := by
  unfold create_token get_token_call
  rw [if_pos h]

/-- Witness for C4: a concrete upstream answering 403 yields a 401 error
with the upstream body as detail. -/
theorem create_token_non200_is_401_witness :
    create_token tenvDeny ⟨"a@mail.test", "pw"⟩ =
      .error ⟨401, "Invalid credentials"⟩ :=
  create_token_non200_is_401 tenvDeny ⟨"a@mail.test", "pw"⟩ (by decide)

/-- Counterexample to claim C5 as stated: a query parameter `token` that is
supplied but empty does NOT take precedence — with query `token=""` and
header `Authorization: Bearer abc123`, the handler uses "abc123", not the
supplied query value. -/
theorem claimC5_counterexample : ¬ claimC5_as_stated := by
  intro h
  have h1 := ((h menvEcho (some "Bearer abc123") (some "") 1 "m1").1 "" rfl).1
  exact absurd h1 (by decide)

/-- Claim C5 (amended): token resolution for the message-listing and
message-fetch endpoints — a NON-EMPTY query parameter `token` is used and
takes precedence over any Authorization header; otherwise (query token
falsy) an Authorization header of exactly two whitespace-separated parts
whose first part equals "bearer" case-insensitively yields the second part;
if neither rule yields a token, the request fails with status 400 and
detail "Missing token". -/
theorem token_resolution (menv : MsgEnv) (auth tok : Option String)
    (page : Int) (mid : String) :
    (∀ t, tok = some t → t ≠ "" →
      list_messages menv auth tok page = messages_call menv t page ∧
      get_message menv mid auth tok = message_call menv t mid) ∧
    (pyTruthy tok = false →
      ∀ a w t2, auth = some a → pySplit a = [w, t2] → pyLower w = "bearer" →
      list_messages menv auth tok page = messages_call menv t2 page ∧
      get_message menv mid auth tok = message_call menv t2 mid) ∧
    (pyTruthy tok = false → header_token auth = none →
      list_messages menv auth tok page = .error ⟨400, "Missing token"⟩ ∧
      get_message menv mid auth tok = .error ⟨400, "Missing token"⟩) := by
  refine ⟨?_, ?_, ?_⟩
  · rintro t rfl ht
    have h1 := extract_token_truthy (some t) auth (pyTruthy_some t ht)
    constructor <;>
      simp [list_messages, get_message, h1, pyTruthy_some t ht]
  · rintro hf a w t2 rfl hsplit hw
    have h1 := extract_token_header tok a w t2 hf hsplit hw
    have ht2 : t2 ≠ "" := pySplit_ne_empty a t2 (by rw [hsplit]; simp)
    constructor <;>
      simp [list_messages, get_message, h1, pyTruthy_some t2 ht2]
  · intro hf hht
    have h1 := extract_token_falsy tok auth hf
    rw [hht] at h1
    constructor <;> simp [list_messages, get_message, h1, hf]

/-- Witness for the amended C5: a request with `Authorization: Bearer
abc123` and no query token calls upstream with token "abc123". -/
theorem token_resolution_witness :
    list_messages menvEcho (some "Bearer abc123") none 1 = .ok "abc123" :=
  (((token_resolution menvEcho (some "Bearer abc123") none 1 "m").2.1 rfl
    "Bearer abc123" "Bearer" "abc123" rfl (by decide) (by decide)).1).trans (by decide)

/-- Claim C9 (confirmed): in the message-listing and message-fetch
endpoints, a query parameter `token` that is present but equal to the empty
string is treated as absent — extraction falls back to the Authorization
header, and if the header yields no token either, the request fails with
status 400. -/
theorem empty_query_token_ignored (menv : MsgEnv) (auth : Option String)
    (page : Int) (mid : String) :
    (list_messages menv auth (some "") page = list_messages menv auth none page) ∧
    (get_message menv mid auth (some "") = get_message menv mid auth none) ∧
    (header_token auth = none →
      list_messages menv auth (some "") page = .error ⟨400, "Missing token"⟩ ∧
      get_message menv mid auth (some "") = .error ⟨400, "Missing token"⟩) := by
  have h1 := extract_token_falsy (some "") auth (by decide)
  have h2 := extract_token_falsy none auth (by decide)
  cases hht : header_token auth with
  | none =>
    rw [hht] at h1 h2
    refine ⟨?_, ?_, fun _ => ⟨?_, ?_⟩⟩ <;>
      simp [list_messages, get_message, h1, h2, pyTruthy]
  | some t =>
    rw [hht] at h1 h2
    refine ⟨?_, ?_, fun hcon => ?_⟩
    · simp [list_messages, h1, h2]
    · simp [get_message, h1, h2]
    · exact Option.noConfusion hcon

/-- Witness for C9: empty query token plus a non-Bearer header gives 400. -/
theorem empty_query_token_ignored_witness :
    list_messages menvEcho (some "Token abc") (some "") 1 =
      .error ⟨400, "Missing token"⟩ :=
  ((empty_query_token_ignored menvEcho (some "Token abc") 1 "m").2.2 (by decide)).1

/-! ## Claim theorems: provisioning -/

/-- Counterexample to claim C1 as stated: with an upstream whose account
creation always succeeds (201) but whose `/me` call answers 409 on the
first attempt, the loop retries — two attempts are started — even though
account creation never failed with 409, so a retry does NOT happen exactly
when account creation fails with conflict status 409. -/
theorem claimC1_counterexample : ¬ claimC1_as_stated := by
  intro h
  have h1 := (h envMe409 bodyNone).1
  have h2 := h1 0 (by decide)
  exact absurd h2 (by decide)

/-- Claim C1 (amended): in the provisioning loop, a retry (with a freshly
generated random local-part and recomputed address) happens exactly when
the attempt raises an HTTPException with status 409 — which account
creation raises on a conflict, but which the account-info step can raise
as well; any failure with a status other than 409 aborts the loop
immediately at that attempt and that error is propagated to the caller
unchanged.  Concretely: after `N` conflict attempts, a successful attempt
`N` returns its bundle having started `N + 1` attempts, and a non-409
failure at attempt `N` aborts with exactly that error, attempt count
`N + 1`. -/
theorem create_temp_mail_retry_policy
    (env : Env) (body : NewAccountRequest) (d0 : DomainRecord)
    (rest : List DomainRecord) (dom : String) (N : Nat)
    (hd : env.domainsStatus = 200) (hm : env.domainsMembers = d0 :: rest)
    (hres : resolve_domain body d0 = some dom) (hN : N < 4)
    (h409 : ∀ i, i < N → attemptConflict env i) :
    (∀ b, attemptOnce env N (addressAt env body dom N) (resolvedPassword env body) = .ok b →
      create_temp_mail_run env body = (.ok b, N + 1)) ∧
    (∀ e, attemptOnce env N (addressAt env body dom N) (resolvedPassword env body) = .error e →
      e.status_code ≠ 409 → create_temp_mail_run env body = (.error e, N + 1)) := by
  rw [run_reaches_loop env body d0 rest dom hd hm hres]
  interval_cases N
  · refine ⟨fun b hb => ?_, fun e he hs => ?_⟩
    · rw [addressAt_zero] at hb
      exact attemptLoop_ok env dom (resolvedPassword env body) 3 0
        (initLocalK env body).2 _ none b hb
    · rw [addressAt_zero] at he
      exact attemptLoop_abort env dom (resolvedPassword env body) 3 0
        (initLocalK env body).2 _ none e he hs
  · obtain ⟨e0, he0, hs0⟩ := h409 0 (by omega)
      ((initLocalK env body).1 ++ "@" ++ dom) (resolvedPassword env body)
    rw [attemptLoop_retry env dom (resolvedPassword env body) 3 0
      (initLocalK env body).2 ((initLocalK env body).1 ++ "@" ++ dom) none e0 he0 hs0]
    refine ⟨fun b hb => ?_, fun e he hs => ?_⟩
    · rw [addressAt_one] at hb
      exact attemptLoop_ok env dom (resolvedPassword env body) 2 1
        ((initLocalK env body).2 + 1) _ (some e0) b hb
    · rw [addressAt_one] at he
      exact attemptLoop_abort env dom (resolvedPassword env body) 2 1
        ((initLocalK env body).2 + 1) _ (some e0) e he hs
  · obtain ⟨e0, he0, hs0⟩ := h409 0 (by omega)
      ((initLocalK env body).1 ++ "@" ++ dom) (resolvedPassword env body)
    rw [attemptLoop_retry env dom (resolvedPassword env body) 3 0
      (initLocalK env body).2 ((initLocalK env body).1 ++ "@" ++ dom) none e0 he0 hs0]
    obtain ⟨e1, he1, hs1⟩ := h409 1 (by omega)
      (env.rand (initLocalK env body).2 ++ "@" ++ dom) (resolvedPassword env body)
    rw [attemptLoop_retry env dom (resolvedPassword env body) 2 1
      ((initLocalK env body).2 + 1) (env.rand (initLocalK env body).2 ++ "@" ++ dom)
      (some e0) e1 he1 hs1]
    refine ⟨fun b hb => ?_, fun e he hs => ?_⟩
    · rw [addressAt_two] at hb
      exact attemptLoop_ok env dom (resolvedPassword env body) 1 2
        ((initLocalK env body).2 + 1 + 1) _ (some e1) b hb
    · rw [addressAt_two] at he
      exact attemptLoop_abort env dom (resolvedPassword env body) 1 2
        ((initLocalK env body).2 + 1 + 1) _ (some e1) e he hs
  · obtain ⟨e0, he0, hs0⟩ := h409 0 (by omega)
      ((initLocalK env body).1 ++ "@" ++ dom) (resolvedPassword env body)
    rw [attemptLoop_retry env dom (resolvedPassword env body) 3 0
      (initLocalK env body).2 ((initLocalK env body).1 ++ "@" ++ dom) none e0 he0 hs0]
    obtain ⟨e1, he1, hs1⟩ := h409 1 (by omega)
      (env.rand (initLocalK env body).2 ++ "@" ++ dom) (resolvedPassword env body)
    rw [attemptLoop_retry env dom (resolvedPassword env body) 2 1
      ((initLocalK env body).2 + 1) (env.rand (initLocalK env body).2 ++ "@" ++ dom)
      (some e0) e1 he1 hs1]
    obtain ⟨e2, he2, hs2⟩ := h409 2 (by omega)
      (env.rand ((initLocalK env body).2 + 1) ++ "@" ++ dom) (resolvedPassword env body)
    rw [attemptLoop_retry env dom (resolvedPassword env body) 1 2
      ((initLocalK env body).2 + 1 + 1) (env.rand ((initLocalK env body).2 + 1) ++ "@" ++ dom)
      (some e1) e2 he2 hs2]
    have hk : (initLocalK env body).2 + 1 + 1 = (initLocalK env body).2 + 2 := by omega
    rw [hk]
    refine ⟨fun b hb => ?_, fun e he hs => ?_⟩
    · rw [addressAt_three] at hb
      exact attemptLoop_ok env dom (resolvedPassword env body) 0 3
        ((initLocalK env body).2 + 2 + 1) _ (some e2) b hb
    · rw [addressAt_three] at he
      exact attemptLoop_abort env dom (resolvedPassword env body) 0 3
        ((initLocalK env body).2 + 2 + 1) _ (some e2) e he hs

/-- Witness for the amended C1: one conflicted attempt followed by a
successful one yields the success bundle with a regenerated address and
exactly two attempts started. -/
theorem create_temp_mail_retry_policy_witness :
    create_temp_mail_run envConflict0 bodyNone =
      (.ok ⟨"userx@mail.test", "P@aaaaaaaaaaaaaa", some "tok", "acct"⟩, 2) :=
  (create_temp_mail_retry_policy envConflict0 bodyNone dW [] "mail.test" 1 rfl rfl
    (by decide) (by decide)
    (fun i hi => by
      interval_cases i
      exact attemptConflict_of_create409 envConflict0 0 (by decide))).1
    ⟨"userx@mail.test", "P@aaaaaaaaaaaaaa", some "tok", "acct"⟩ (by decide)

/-- Claim C2 (confirmed): if every one of the 4 provisioning attempts fails
with conflict status 409 on account creation, the call fails with a 409
error and the propagated error is the last encountered one (the conflict of
attempt 3, carrying that response's body); all 4 attempts are started, so
the loop never reaches its 500 fallback with no recorded error. -/
theorem create_temp_mail_all_conflicts
    (env : Env) (body : NewAccountRequest) (d0 : DomainRecord)
    (rest : List DomainRecord) (dom : String)
    (hd : env.domainsStatus = 200) (hm : env.domainsMembers = d0 :: rest)
    (hres : resolve_domain body d0 = some dom)
    (h409 : ∀ i, i < 4 → env.createStatus i = 409) :
    create_temp_mail_run env body = (.error ⟨409, env.createText 3⟩, 4) := by
  rw [run_reaches_loop env body d0 rest dom hd hm hres]
  rw [attemptLoop_retry env dom (resolvedPassword env body) 3 0
    (initLocalK env body).2 ((initLocalK env body).1 ++ "@" ++ dom) none
    ⟨409, env.createText 0⟩
    (attemptOnce_409 env 0 _ _ (h409 0 (by omega))) rfl]
  rw [attemptLoop_retry env dom (resolvedPassword env body) 2 1
    ((initLocalK env body).2 + 1) (env.rand (initLocalK env body).2 ++ "@" ++ dom)
    (some ⟨409, env.createText 0⟩) ⟨409, env.createText 1⟩
    (attemptOnce_409 env 1 _ _ (h409 1 (by omega))) rfl]
  rw [attemptLoop_retry env dom (resolvedPassword env body) 1 2
    ((initLocalK env body).2 + 1 + 1)
    (env.rand ((initLocalK env body).2 + 1) ++ "@" ++ dom)
    (some ⟨409, env.createText 1⟩) ⟨409, env.createText 2⟩
    (attemptOnce_409 env 2 _ _ (h409 2 (by omega))) rfl]
  rw [attemptLoop_retry env dom (resolvedPassword env body) 0 3
    ((initLocalK env body).2 + 1 + 1 + 1)
    (env.rand ((initLocalK env body).2 + 1 + 1) ++ "@" ++ dom)
    (some ⟨409, env.createText 2⟩) ⟨409, env.createText 3⟩
    (attemptOnce_409 env 3 _ _ (h409 3 (by omega))) rfl]
  exact attemptLoop_zero env dom (resolvedPassword env body) 4
    ((initLocalK env body).2 + 1 + 1 + 1 + 1) _ ⟨409, env.createText 3⟩

/-- Witness for C2: a concrete upstream answering 409 on every creation
attempt makes the endpoint fail with that 409 error after 4 attempts. -/
theorem create_temp_mail_all_conflicts_witness :
    create_temp_mail_run envAll409 bodyNone = (.error ⟨409, ""⟩, 4) :=
  create_temp_mail_all_conflicts envAll409 bodyNone dW [] "mail.test"
    rfl rfl (by decide) (fun _ _ => rfl)

/-- Claim C3 (confirmed): for every N < 4, if account creation returns 409
on the first N attempts and 200/201 on attempt N+1 (and the token and
account-info steps succeed there), `create_temp_mail` returns the success
bundle of that attempt; and when N ≥ 1, provided the freshly generated
local-part of the last retry differs from the initial local-part (the
non-determinism contract of `random_local_part`), the returned address
differs from the address attempted on the first iteration. -/
theorem create_temp_mail_conflicts_then_success
    (env : Env) (body : NewAccountRequest) (d0 : DomainRecord)
    (rest : List DomainRecord) (dom : String) (N : Nat)
    (hd : env.domainsStatus = 200) (hm : env.domainsMembers = d0 :: rest)
    (hres : resolve_domain body d0 = some dom) (hN : N < 4)
    (h409 : ∀ i, i < N → env.createStatus i = 409)
    (hc : env.createStatus N = 200 ∨ env.createStatus N = 201)
    (ht : env.tokenStatus N = 200)
    (hme : env.meStatus N (env.tokenPayload N).token = 200) :
    create_temp_mail env body = .ok
      { address := addressAt env body dom N,
        password := resolvedPassword env body,
        token := (env.tokenPayload N).token,
        account := env.meBody N (env.tokenPayload N).token } ∧
    (1 ≤ N → env.rand ((initLocalK env body).2 + (N - 1)) ≠ (initLocalK env body).1 →
      addressAt env body dom N ≠ addressAt env body dom 0) := by
  constructor
  · unfold create_temp_mail
    rw [run_reaches_loop env body d0 rest dom hd hm hres]
    interval_cases N
    · rw [attemptLoop_ok env dom (resolvedPassword env body) 3 0
        (initLocalK env body).2 ((initLocalK env body).1 ++ "@" ++ dom) none _
        (attemptOnce_success env 0 ((initLocalK env body).1 ++ "@" ++ dom)
          (resolvedPassword env body) hc ht hme)]
      simp [addressAt_zero]
    · rw [attemptLoop_retry env dom (resolvedPassword env body) 3 0
        (initLocalK env body).2 ((initLocalK env body).1 ++ "@" ++ dom) none
        ⟨409, env.createText 0⟩
        (attemptOnce_409 env 0 _ _ (h409 0 (by omega))) rfl]
      rw [attemptLoop_ok env dom (resolvedPassword env body) 2 1
        ((initLocalK env body).2 + 1) (env.rand (initLocalK env body).2 ++ "@" ++ dom)
        (some ⟨409, env.createText 0⟩) _
        (attemptOnce_success env 1 (env.rand (initLocalK env body).2 ++ "@" ++ dom)
          (resolvedPassword env body) hc ht hme)]
      simp [addressAt_one]
    · rw [attemptLoop_retry env dom (resolvedPassword env body) 3 0
        (initLocalK env body).2 ((initLocalK env body).1 ++ "@" ++ dom) none
        ⟨409, env.createText 0⟩
        (attemptOnce_409 env 0 _ _ (h409 0 (by omega))) rfl]
      rw [attemptLoop_retry env dom (resolvedPassword env body) 2 1
        ((initLocalK env body).2 + 1) (env.rand (initLocalK env body).2 ++ "@" ++ dom)
        (some ⟨409, env.createText 0⟩) ⟨409, env.createText 1⟩
        (attemptOnce_409 env 1 _ _ (h409 1 (by omega))) rfl]
      rw [attemptLoop_ok env dom (resolvedPassword env body) 1 2
        ((initLocalK env body).2 + 1 + 1)
        (env.rand ((initLocalK env body).2 + 1) ++ "@" ++ dom)
        (some ⟨409, env.createText 1⟩) _
        (attemptOnce_success env 2 (env.rand ((initLocalK env body).2 + 1) ++ "@" ++ dom)
          (resolvedPassword env body) hc ht hme)]
      simp [addressAt_two]
    · rw [attemptLoop_retry env dom (resolvedPassword env body) 3 0
        (initLocalK env body).2 ((initLocalK env body).1 ++ "@" ++ dom) none
        ⟨409, env.createText 0⟩
        (attemptOnce_409 env 0 _ _ (h409 0 (by omega))) rfl]
      rw [attemptLoop_retry env dom (resolvedPassword env body) 2 1
        ((initLocalK env body).2 + 1) (env.rand (initLocalK env body).2 ++ "@" ++ dom)
        (some ⟨409, env.createText 0⟩) ⟨409, env.createText 1⟩
        (attemptOnce_409 env 1 _ _ (h409 1 (by omega))) rfl]
      rw [attemptLoop_retry env dom (resolvedPassword env body) 1 2
        ((initLocalK env body).2 + 1 + 1)
        (env.rand ((initLocalK env body).2 + 1) ++ "@" ++ dom)
        (some ⟨409, env.createText 1⟩) ⟨409, env.createText 2⟩
        (attemptOnce_409 env 2 _ _ (h409 2 (by omega))) rfl]
      have hk : (initLocalK env body).2 + 1 + 1 = (initLocalK env body).2 + 2 := by omega
      rw [hk]
      rw [attemptLoop_ok env dom (resolvedPassword env body) 0 3
        ((initLocalK env body).2 + 2 + 1)
        (env.rand ((initLocalK env body).2 + 2) ++ "@" ++ dom)
        (some ⟨409, env.createText 2⟩) _
        (attemptOnce_success env 3 (env.rand ((initLocalK env body).2 + 2) ++ "@" ++ dom)
          (resolvedPassword env body) hc ht hme)]
      simp [addressAt_three]
  · intro hN1 hne hcon
    apply hne
    have h' : addressAt env body dom N =
        env.rand ((initLocalK env body).2 + (N - 1)) ++ "@" ++ dom := by
      unfold addressAt
      rw [if_neg (by omega)]
    rw [h', addressAt_zero] at hcon
    exact append_at_inj _ _ dom hcon

/-- Witness for C3 at N = 1: one conflict, then success; the returned
address uses the regenerated local-part and differs from the initial
address. -/
theorem create_temp_mail_conflicts_then_success_witness :
    create_temp_mail envConflict0 bodyNone =
      .ok ⟨"userx@mail.test", "P@aaaaaaaaaaaaaa", some "tok", "acct"⟩ ∧
    ("userx@mail.test" : String) ≠ "user@mail.test" := by
  have h := create_temp_mail_conflicts_then_success envConflict0 bodyNone dW []
    "mail.test" 1 rfl rfl (by decide) (by decide)
    (fun i hi => by interval_cases i; decide) (by decide) (by decide) (by decide)
  exact ⟨h.1, h.2 (by decide) (by decide)⟩

/-- Counterexample to claim C6 as stated: with a caller-supplied local-part
"alice" and password, an upstream that answers 409 on the first creation
attempt and succeeds on the second makes `create_temp_mail` return a
SUCCESSFUL bundle whose address uses the regenerated random local-part, not
the supplied one — so not every successful call returns supplied-local ++
"@" ++ domain. -/
theorem claimC6_counterexample : ¬ claimC6_as_stated := by
  intro h
  have h1 := h envConflict0 bodyOverride "alice" "Secret99"
    ⟨"user@mail.test", "Secret99", some "tok", "acct"⟩ dW [] "mail.test"
    rfl rfl (by decide) rfl (by decide) rfl (by decide) (by decide)
  exact absurd h1 (by decide)

/-- Claim C6 (amended): for every caller-supplied (truthy) local-part and
password override, a `create_temp_mail` call that succeeds on the FIRST
attempt (no conflict retry has regenerated the local part) returns an
address equal to the exact concatenation of the supplied local part, "@",
and the resolved domain, and the supplied password. -/
theorem create_temp_mail_override_address
    (env : Env) (body : NewAccountRequest) (l p : String) (d0 : DomainRecord)
    (rest : List DomainRecord) (dom : String)
    (hd : env.domainsStatus = 200) (hm : env.domainsMembers = d0 :: rest)
    (hres : resolve_domain body d0 = some dom)
    (hl : body.«local» = some l) (hl2 : l ≠ "")
    (hp : body.password = some p) (hp2 : p ≠ "")
    (hc : env.createStatus 0 = 200 ∨ env.createStatus 0 = 201)
    (ht : env.tokenStatus 0 = 200)
    (hme : env.meStatus 0 (env.tokenPayload 0).token = 200) :
    create_temp_mail env body = .ok
      { address := l ++ "@" ++ dom, password := p,
        token := (env.tokenPayload 0).token,
        account := env.meBody 0 (env.tokenPayload 0).token } := by
  have hlk : initLocalK env body = (l, 0) := by
    simp [initLocalK, hl, hl2]
  have hpw : resolvedPassword env body = p := by
    simp [resolvedPassword, hp, hp2]
  unfold create_temp_mail
  rw [run_reaches_loop env body d0 rest dom hd hm hres]
  simp only [hlk, hpw]
  rw [attemptLoop_ok env dom p 3 0 0 (l ++ "@" ++ dom) none _
    (attemptOnce_success env 0 (l ++ "@" ++ dom) p hc ht hme)]

/-- Witness for the amended C6: overrides "alice"/"Secret99" with a
conflict-free upstream give address "alice@mail.test" and the supplied
password. -/
theorem create_temp_mail_override_address_witness :
    create_temp_mail baseEnv bodyOverride =
      .ok ⟨"alice@mail.test", "Secret99", some "tok", "acct"⟩ :=
  create_temp_mail_override_address baseEnv bodyOverride "alice" "Secret99" dW []
    "mail.test" rfl rfl (by decide) rfl (by decide) rfl (by decide) (by decide)
    rfl rfl

/-- Claim C7 (confirmed): `create_temp_mail` fails with 502 before any
account-creation attempt when the fetched domain list is empty, or when the
caller supplied no (truthy) domain and the first record has no usable
(truthy) `domain` field; otherwise the resolved domain — the one every
attempted address is built on — is the caller-supplied one, else the
`domain` field of the first listed record. -/
theorem create_temp_mail_domain_rules (env : Env) (body : NewAccountRequest)
    (hd : env.domainsStatus = 200) :
    (env.domainsMembers = [] →
      create_temp_mail_run env body =
        (.error ⟨502, "No domains available from mail.tm"⟩, 0)) ∧
    (∀ d0 rest, env.domainsMembers = d0 :: rest → pyTruthy body.domain = false →
      pyTruthy d0.domain = false →
      create_temp_mail_run env body =
        (.error ⟨502, "Invalid domain from provider"⟩, 0)) ∧
    (∀ d0 rest s, env.domainsMembers = d0 :: rest → body.domain = some s → s ≠ "" →
      resolve_domain body d0 = some s) ∧
    (∀ d0 rest s, env.domainsMembers = d0 :: rest → pyTruthy body.domain = false →
      d0.domain = some s → s ≠ "" → resolve_domain body d0 = some s) ∧
    (∀ d0 rest dom b, env.domainsMembers = d0 :: rest →
      resolve_domain body d0 = some dom → create_temp_mail env body = .ok b →
      ∃ l, b.address = l ++ "@" ++ dom) := by
  refine ⟨?_, ?_, ?_, ?_, ?_⟩
  · intro hm
    simp [create_temp_mail_run, MailTmClient.list_domains, hd, hm]
  · intro d0 rest hm hb hdom
    have hres : resolve_domain body d0 = none := by
      rcases pyTruthy_false_cases body.domain hb with h1 | h1 <;>
        rcases pyTruthy_false_cases d0.domain hdom with h2 | h2 <;>
          simp [resolve_domain, pyOrStr, h1, h2]
    simp [create_temp_mail_run, MailTmClient.list_domains, hd, hm, hres]
  · intro d0 rest s hm hsome hs
    simp [resolve_domain, pyOrStr, hsome, hs]
  · intro d0 rest s hm hb hdom hs
    rcases pyTruthy_false_cases body.domain hb with h1 | h1 <;>
      simp [resolve_domain, pyOrStr, h1, hdom, hs]
  · intro d0 rest dom b hm hres hok
    unfold create_temp_mail at hok
    rw [run_reaches_loop env body d0 rest dom hd hm hres] at hok
    exact attemptLoop_addr_invariant env dom (resolvedPassword env body) 4 0
      (initLocalK env body).2 ((initLocalK env body).1 ++ "@" ++ dom) none b
      ⟨(initLocalK env body).1, rfl⟩ hok

/-- Witness for C7: an empty domain list gives the 502 error with zero
attempts started. -/
theorem create_temp_mail_domain_rules_witness :
    create_temp_mail_run envNoDomains bodyNone =
      (.error ⟨502, "No domains available from mail.tm"⟩, 0) :=
  (create_temp_mail_domain_rules envNoDomains bodyNone rfl).1 rfl

/-- Claim C8 (confirmed): for every non-empty, well-formed domain list
(first record carrying a truthy `domain` field), a successful
`create_temp_mail` call with no overrides produces an address whose domain
part equals the `domain` field of the first listed record. -/
theorem create_temp_mail_default_domain (env : Env) (b : Bundle)
    (d0 : DomainRecord) (rest : List DomainRecord) (s : String)
    (hd : env.domainsStatus = 200) (hm : env.domainsMembers = d0 :: rest)
    (hdom : d0.domain = some s) (hs : s ≠ "")
    (hok : create_temp_mail env bodyNone = .ok b) :
    ∃ l, b.address = l ++ "@" ++ s := by
  have hres : resolve_domain bodyNone d0 = some s := by
    simp [resolve_domain, pyOrStr, bodyNone, hdom, hs]
  unfold create_temp_mail at hok
  rw [run_reaches_loop env bodyNone d0 rest s hd hm hres] at hok
  exact attemptLoop_addr_invariant env s (resolvedPassword env bodyNone) 4 0
    (initLocalK env bodyNone).2 ((initLocalK env bodyNone).1 ++ "@" ++ s) none b
    ⟨(initLocalK env bodyNone).1, rfl⟩ hok

/-- Witness for C8: the concrete conflict-free run with no overrides
returns an address ending in "@mail.test", the first listed domain. -/
theorem create_temp_mail_default_domain_witness :
    ∃ l, ("user@mail.test" : String) = l ++ "@" ++ "mail.test" :=
  create_temp_mail_default_domain baseEnv
    ⟨"user@mail.test", "P@aaaaaaaaaaaaaa", some "tok", "acct"⟩ dW [] "mail.test"
    rfl rfl rfl (by decide) (by decide)

/-- Claim C10 (confirmed): if the upstream `/token` call succeeds with a
payload containing no "token" key, `create_temp_mail` raises no error
there — it proceeds to the account-info call presenting token `None`, and
if that call succeeds the returned bundle has a null token field. -/
theorem create_temp_mail_token_none
    (env : Env) (body : NewAccountRequest) (d0 : DomainRecord)
    (rest : List DomainRecord) (dom : String)
    (hd : env.domainsStatus = 200) (hm : env.domainsMembers = d0 :: rest)
    (hres : resolve_domain body d0 = some dom)
    (hc : env.createStatus 0 = 200 ∨ env.createStatus 0 = 201)
    (ht : env.tokenStatus 0 = 200)
    (hp : env.tokenPayload 0 = ⟨none⟩)
    (hme : env.meStatus 0 none = 200) :
    create_temp_mail env body = .ok
      { address := addressAt env body dom 0,
        password := resolvedPassword env body,
        token := none,
        account := env.meBody 0 none } := by
  have hme' : env.meStatus 0 (env.tokenPayload 0).token = 200 := by
    rw [hp]; exact hme
  unfold create_temp_mail
  rw [run_reaches_loop env body d0 rest dom hd hm hres]
  rw [attemptLoop_ok env dom (resolvedPassword env body) 3 0
    (initLocalK env body).2 ((initLocalK env body).1 ++ "@" ++ dom) none _
    (attemptOnce_success env 0 ((initLocalK env body).1 ++ "@" ++ dom)
      (resolvedPassword env body) hc ht hme')]
  simp [addressAt_zero, hp]

/-- Witness for C10: a concrete upstream whose token payload has no
"token" key yields a success bundle with a null token. -/
theorem create_temp_mail_token_none_witness :
    create_temp_mail envTokenNone bodyNone =
      .ok ⟨"user@mail.test", "P@aaaaaaaaaaaaaa", none, "acct"⟩ :=
  create_temp_mail_token_none envTokenNone bodyNone dW [] "mail.test"
    rfl rfl (by decide) (by decide) rfl rfl rfl
